import Mathlib

/-!
Verification of the process-manager configuration in `ecosystem.config.js`.

The source module is a single object literal exported via `module.exports`.
We embed JavaScript values shallowly as `JSValue`, transcribe the literal
field by field, and model (from the specification, since no loader code is
part of the repository) the loader and the five-field cron validator that
the specification's schema-validity property refers to.
-/

/-- A JavaScript value, restricted to the shapes occurring in the source:
strings, numbers, objects (ordered key-value lists) and arrays. -/
inductive JSValue : Type where
  | str : String → JSValue
  | num : Int → JSValue
  | obj : List (String × JSValue) → JSValue
  | arr : List JSValue → JSValue

/-- Look a key up in an object's field list (first match, as JS property
access on an object literal without duplicate keys). -/
def lookupPairs : List (String × JSValue) → String → Option JSValue
  | [], _ => none
  | p :: rest, k => if k = p.1 then some p.2 else lookupPairs rest k

/-- Property access `v[k]` on an object value; `none` on non-objects. -/
def lookupField : JSValue → String → Option JSValue
  | JSValue.obj fs, k => lookupPairs fs k
  | _, _ => none

/-- Is the value a string? -/
def isStrVal : JSValue → Bool
  | JSValue.str _ => true
  | _ => false

/-- Is the value a number? -/
def isNumVal : JSValue → Bool
  | JSValue.num _ => true
  | _ => false

/-- The `env` object literal of the single app entry
(`ecosystem.config.js`, lines 8-10). -/
def env0 : List (String × JSValue) :=
  [("PYTHONUNBUFFERED", JSValue.str "1")]

/-- The fields of the single app entry, in source order
(`ecosystem.config.js`, lines 3-11). -/
def app0Fields : List (String × JSValue) :=
  [ ("name", JSValue.str "discord-reports")
  , ("script", JSValue.str "bot.py")
  , ("interpreter", JSValue.str "python3")
  , ("cron_restart", JSValue.str "30 4 * * *")
  , ("env", JSValue.obj env0) ]

/-- The single app record `apps[0]`. -/
def app0 : JSValue := JSValue.obj app0Fields

/-- The `apps` array (`ecosystem.config.js`, line 2). -/
def apps : List JSValue := [app0]

/-- The exported object, `module.exports` (`ecosystem.config.js`, lines 1-13). -/
def moduleExports : JSValue := JSValue.obj [("apps", JSValue.arr apps)]

/-! ### Cron validation and the loader, modelled from the specification -/

/-- Split a string at spaces into its fields. -/
def splitAux : List Char → List Char → List String
  | [], cur => [String.mk cur.reverse]
  | c :: cs, cur =>
    if c = ' ' then String.mk cur.reverse :: splitAux cs []
    else splitAux cs (c :: cur)

/-- The whitespace-separated fields of a string. -/
def splitFields (s : String) : List String := splitAux s.toList []

/-- Does the string consist of at least one decimal digit and nothing else? -/
def isDigits (s : String) : Bool :=
  !(s.toList.isEmpty) && s.toList.all Char.isDigit

/-- Numeric value of a digit string. -/
def digitsVal (s : String) : Nat :=
  s.toList.foldl (fun a c => a * 10 + (c.toNat - 48)) 0

/-- Modelled from the spec: a single cron field is a wildcard or a numeric
value within the field's range (no cron parser is part of the repository;
the specification calls for standard five-field cron syntax). -/
def cronField (lo hi : Nat) (s : String) : Bool :=
  s == "*" ||
    (isDigits s && decide (lo ≤ digitsVal s) && decide (digitsVal s ≤ hi))

/-- Modelled from the spec: validity of a five-field cron expression —
exactly five whitespace-separated fields: minute 0-59, hour 0-23,
day-of-month 1-31, month 1-12, day-of-week 0-7, each also admitting the
wildcard. -/
def cronValid (s : String) : Bool :=
  match splitFields s with
  | [mi, hr, dom, mon, dow] =>
    cronField 0 59 mi && cronField 0 23 hr && cronField 1 31 dom &&
      cronField 1 12 mon && cronField 0 7 dow
  | _ => false

/-- The record a successful load of one app entry yields. -/
structure ParsedApp : Type where
  name : String
  script : String
  interpreter : Option String
  cron_restart : Option String
  env : Option (List (String × String))

/-- An optional field that, when present, must be a string. -/
def optStr : Option JSValue → Option (Option String)
  | none => some none
  | some (JSValue.str s) => some (some s)
  | some _ => none

/-- An optional field that, when present, must be a valid cron string. -/
def optCron : Option JSValue → Option (Option String)
  | none => some none
  | some (JSValue.str s) => if cronValid s then some (some s) else none
  | some _ => none

/-- Read an object's field list as a string-to-string mapping, failing on
any non-string value. -/
def strPairs : List (String × JSValue) → Option (List (String × String))
  | [] => some []
  | (k, JSValue.str s) :: rest => (strPairs rest).map (fun r => (k, s) :: r)
  | _ :: _ => none

/-- An optional field that, when present, must be a string-to-string map. -/
def optEnv : Option JSValue → Option (Option (List (String × String)))
  | none => some none
  | some (JSValue.obj fs) => (strPairs fs).map some
  | some _ => none

/-- Modelled from the spec: the loader for one app entry (no loader code is
part of the repository). It requires `name` and `script` to be present,
strings and non-empty, `cron_restart` (if present) to be a valid five-field
cron expression, and `env` (if present) to map string keys to string
values; it fails (`none`) otherwise. -/
def parseApp (v : JSValue) : Option ParsedApp :=
  match lookupField v "name", lookupField v "script",
      optStr (lookupField v "interpreter"),
      optCron (lookupField v "cron_restart"),
      optEnv (lookupField v "env") with
  | some (JSValue.str n), some (JSValue.str s), some i, some c, some e =>
    if n = "" || s = "" then none else some ⟨n, s, i, c, e⟩
  | _, _, _, _, _ => none

/-- Modelled from the spec: the type constraint a single field of an app
record must satisfy under the external-interface schema; a key outside the
declared five is rejected. -/
def valueOkFor (k : String) (v : JSValue) : Bool :=
  if k == "name" then isStrVal v
  else if k == "script" then isStrVal v
  else if k == "interpreter" then isStrVal v
  else if k == "cron_restart" then
    match v with
    | JSValue.str s => cronValid s
    | _ => false
  else if k == "env" then
    match v with
    | JSValue.obj fs => fs.all (fun p => isStrVal p.2)
    | _ => false
  else false

/-- Modelled from the spec: the external-interface schema for an app
record — `name` and `script` present as strings, and every field present
being one of the five declared fields with the right type. -/
def satisfiesSchema (v : JSValue) : Bool :=
  match v with
  | JSValue.obj fs =>
    (match lookupPairs fs "name" with
     | some (JSValue.str _) => true
     | _ => false) &&
    (match lookupPairs fs "script" with
     | some (JSValue.str _) => true
     | _ => false) &&
    fs.all (fun p => valueOkFor p.1 p.2)
  | _ => false

/-! ### Reading and evaluating the module -/

/-- A read of the exported record: it returns the record and leaves the
module state unchanged (the module body defines no mutating operation). -/
def readConfig (st : JSValue) : JSValue × JSValue := (st, st)

/-- The module state after `n` successive reads. -/
def readN : Nat → JSValue → JSValue
  | 0, st => st
  | n + 1, st => (readConfig (readN n st)).2

/-- Evaluation of the module in an ambient world (process environment and
an evaluation counter): the module body is a single object literal that
reads nothing from the world, so evaluation yields the literal. -/
def evalModule (_w : List (String × String) × Nat) : JSValue := moduleExports

/-! ### Theorems -/

theorem readN_eq (n : Nat) (st : JSValue) : readN n st = st := by
  induction n with
  | zero => rfl
  | succ m ih => simp [readN, readConfig, ih]

/-- Claim C1: parsing the literal configuration succeeds without error and
yields a record with name "discord-reports", script "bot.py", the
python3 interpreter, cron_restart "30 4 * * *", and the env mapping
binding PYTHONUNBUFFERED to "1". -/
theorem parse_literal_config :
    parseApp app0 =
      some ⟨"discord-reports", "bot.py", some "python3",
        some "30 4 * * *", some [("PYTHONUNBUFFERED", "1")]⟩ := by
  rfl

/-- Claim C2: the name and script fields of the configuration record are
non-empty strings. -/
theorem name_script_nonempty :
    lookupField app0 "name" = some (JSValue.str "discord-reports") ∧
    lookupField app0 "script" = some (JSValue.str "bot.py") ∧
    "discord-reports" ≠ "" ∧ "bot.py" ≠ "" :=
  ⟨rfl, rfl, by decide, by decide⟩

/-- Claim C3: the cron_restart field is the string "30 4 * * *", which is a
valid five-field cron expression: it splits into exactly five fields, the
first a minute in 0-59, the second an hour in 0-23, the last three
wildcards or values valid for their positions. -/
theorem cron_restart_valid :
    lookupField app0 "cron_restart" = some (JSValue.str "30 4 * * *") ∧
    splitFields "30 4 * * *" = ["30", "4", "*", "*", "*"] ∧
    cronValid "30 4 * * *" = true :=
  ⟨rfl, rfl, rfl⟩

/-- Claim C4: the env field is a mapping of string keys to string values,
and the value bound to PYTHONUNBUFFERED is the string "1", not a number. -/
theorem env_string_to_string :
    lookupField app0 "env" = some (JSValue.obj env0) ∧
    env0.all (fun p => isStrVal p.2) = true ∧
    strPairs env0 = some [("PYTHONUNBUFFERED", "1")] ∧
    lookupPairs env0 "PYTHONUNBUFFERED" = some (JSValue.str "1") ∧
    isNumVal (JSValue.str "1") = false :=
  ⟨rfl, rfl, rfl, rfl, rfl⟩

/-- Claim C5: the configuration record satisfies the external-interface
schema: name and script are present as strings, and every field present is
one of the five declared fields with its declared type. -/
theorem record_satisfies_schema : satisfiesSchema app0 = true := by
  rfl

/-- Claim C6: the env mapping contains exactly one binding, namely
PYTHONUNBUFFERED. -/
theorem env_single_binding :
    lookupField app0 "env" = some (JSValue.obj env0) ∧
    env0.map Prod.fst = ["PYTHONUNBUFFERED"] ∧
    env0.length = 1 :=
  ⟨rfl, rfl, rfl⟩

/-- Claim C7: the configuration is immutable: reading the exported record
any number of times leaves the module state, and so every field, equal to
what the source defines. -/
theorem config_immutable_under_reads (n : Nat) (k : String) :
    readN n moduleExports = moduleExports ∧
    (readConfig (readN n moduleExports)).1 = moduleExports ∧
    lookupField (readN n moduleExports) k = lookupField moduleExports k := by
  refine ⟨readN_eq n moduleExports, ?_, ?_⟩ <;>
    simp [readConfig, readN_eq n moduleExports]

/-- Claim C8: the exported object contains an apps list with exactly one
entry. -/
theorem apps_single_entry :
    lookupField moduleExports "apps" = some (JSValue.arr apps) ∧
    apps = [app0] ∧ apps.length = 1 :=
  ⟨rfl, rfl, rfl⟩

/-- Claim C9: the app record defines exactly the five keys name, script,
interpreter, cron_restart and env; looking up any other key yields
nothing. -/
theorem app_keys_exact :
    app0Fields.map Prod.fst =
      ["name", "script", "interpreter", "cron_restart", "env"] ∧
    ∀ k : String,
      k ∉ (["name", "script", "interpreter", "cron_restart", "env"] :
        List String) →
      lookupPairs app0Fields k = none := by
  refine ⟨rfl, ?_⟩
  intro k hk
  simp only [List.mem_cons, List.not_mem_nil, or_false, not_or] at hk
  obtain ⟨h1, h2, h3, h4, h5⟩ := hk
  simp [app0Fields, lookupPairs, h1, h2, h3, h4, h5]

/-- Witness for C9 at the concrete key "watch". -/
theorem app_keys_exact_witness :
    "watch" ∉ (["name", "script", "interpreter", "cron_restart", "env"] :
      List String) ∧
    lookupPairs app0Fields "watch" = none :=
  ⟨by decide, app_keys_exact.2 "watch" (by decide)⟩

/-- Claim C10: evaluating the module is deterministic: any two evaluations,
in any two ambient worlds, yield the same record, namely the literal the
source defines. -/
theorem eval_deterministic
    (w1 w2 : List (String × String) × Nat) :
    evalModule w1 = evalModule w2 ∧ evalModule w1 = moduleExports :=
  ⟨rfl, rfl⟩
